import Mathlib

/-!
Shallow embedding of `fedora/client/pkgdb.py` (the PackageDB client of
python-fedora) and verification of its specification.

The client is a thin wrapper that maps method calls onto HTTP requests and
interprets JSON response payloads.  We model the network collaborator
(`BaseClient.send_request`) as an oracle `Server : Request → Payload` that
always answers each request with a parsed JSON object; transport and
authentication failures are delegated to the base client and are out of
scope, exactly as in the specification.  Each client method is embedded as a
pure function that returns its Python result (`Except PyError α`, where
`PyError` covers the exceptions the method body can raise) together with the
ordered list of requests it sent.  Python mutation of the caller-supplied
`branches` list is modelled by returning the final value of that list object.
-/

namespace Pkgdb

/-- Python/JSON values as they occur in request parameters and response
payloads: `None`, booleans, strings, numbers and lists. -/
inductive JVal where
  | null : JVal
  | bool : Bool → JVal
  | str : String → JVal
  | num : Int → JVal
  | arr : List JVal → JVal

/-- Python truthiness of a `JVal` (`None`, `False`, `""`, `0` and `[]` are
falsy, everything else truthy). -/
def JVal.truthy : JVal → Bool
  | .null => false
  | .bool b => b
  | .str s => s != ""
  | .num n => n != 0
  | .arr xs => !xs.isEmpty

/-- A JSON object payload: an association list of fields, looked up like a
Python dict (first match wins; the payloads we build have distinct keys). -/
def Payload : Type := List (String × JVal)

/-- Python `'k' in d` followed by `d['k']`: field lookup. -/
def Payload.lookup (p : Payload) (k : String) : Option JVal :=
  List.lookup k p

/-- One HTTP request issued through `BaseClient.send_request`: the relative
path, whether authentication was demanded, and the optional parameter dict. -/
structure Request where
  path : String
  auth : Bool
  req_params : Option (List (String × JVal))

/-- The network collaborator: maps each request to the parsed JSON payload of
the server's response. -/
def Server : Type := Request → Payload

/-- The Python exceptions the client methods can raise.  `appError` carries
the `name` and `message` arguments of `fedora.client.AppError`;
`packageDBError` is the module's own `PackageDBError`; the others are the
builtin Python exceptions reachable in the method bodies. -/
inductive PyError where
  | appError : String → JVal → PyError
  | packageDBError : String → PyError
  | keyError : String → PyError
  | typeError : String → PyError
  | valueError : String → PyError

/-- `COLLECTIONMAP`: maps branch-abbreviation prefixes to collection names. -/
def COLLECTIONMAP : List (String × String) :=
  [("F", "Fedora"),
   ("FC", "Fedora"),
   ("EL", "Fedora EPEL"),
   ("EPEL", "Fedora EPEL"),
   ("OLPC", "Fedora OLPC"),
   ("RHL", "Red Hat Linux")]

/-- Python `str.split('-')` on a list of characters: splits at every `'-'`,
keeping empty segments, and yields one segment for the empty string. -/
def splitDash : List Char → List (List Char)
  | [] => [[]]
  | c :: rest =>
    if c = '-' then [] :: splitDash rest
    else
      match splitDash rest with
      | [] => [[c]]
      | r :: rs => (c :: r) :: rs

/-- The formatted message of the unknown-abbreviation `PackageDBError` raised
by `canonical_branch_name` (the Python format string
`Collection abbreviation %(collection)s is unknown.  Use F, FC, EL, or OLPC`
applied to the offending prefix). -/
def unknownCollectionMsg (collection : String) : String :=
  "Collection abbreviation " ++ collection ++
    " is unknown.  Use F, FC, EL, or OLPC"

/-- `PackageDB.canonical_branch_name`: turn a branch abbreviation into a
collection name and version.  `branch.split('-')` unpacked into two variables
raises `ValueError` unless the split has exactly two parts; an unrecognized
prefix raises `PackageDBError`. -/
def canonical_branch_name (branch : String) :
    Except PyError (String × String) :=
  if branch = "devel" then .ok ("Fedora", "devel")
  else
    match splitDash branch.data with
    | [c, v] =>
      let collection := String.mk c
      match List.lookup collection COLLECTIONMAP with
      | some name => .ok (name, String.mk v)
      | none => .error (.packageDBError (unknownCollectionMsg collection))
    | parts =>
      if parts.length < 2 then
        .error (.valueError "not enough values to unpack")
      else
        .error (.valueError "too many values to unpack")

/-- Python truthiness of an optional-string argument (`None` and `""` are
falsy). -/
def optTruthy : Option String → Bool
  | none => false
  | some s => s != ""

/-- Python value of an optional-string argument used as a parameter value
(`None` becomes JSON null). -/
def optJVal : Option String → JVal
  | none => .null
  | some s => .str s

/-- The repeated response check `'status' in resp and not resp['status']`. -/
def statusFails (resp : Payload) : Bool :=
  match resp.lookup "status" with
  | some s => !s.truthy
  | none => false

/-- The repeated inline error idiom of the module: on a falsy `status`,
`raise AppError(name='PackageDBError', message=resp['message'])` (a missing
`message` field would be a Python `KeyError`); otherwise pass the payload
through unchanged. -/
def checkStatus (resp : Payload) : Except PyError Payload :=
  if statusFails resp then
    match resp.lookup "message" with
    | some m => .error (.appError "PackageDBError" m)
    | none => .error (.keyError "message")
  else .ok resp

/-- The optional-branch parameter construction at the top of
`get_package_info`: a truthy `branch` is resolved through
`canonical_branch_name` (whose exceptions propagate) into the
`collectionName` and `collectionVersion` parameters. -/
def gpiData (branch : Option String) :
    Except PyError (Option (List (String × JVal))) :=
  if optTruthy branch then
    match canonical_branch_name (branch.getD "") with
    | .ok (collection, ver) =>
      .ok (some [("collectionName", .str collection),
                 ("collectionVersion", .str ver)])
    | .error e => .error e
  else .ok none

/-- `PackageDB.get_package_info`: optional branch resolution, one GET-like
request to `/packages/name/PKG`, then the falsy-`status` check. -/
def get_package_info (server : Server) (pkg : String)
    (branch : Option String) : Except PyError Payload × List Request :=
  match gpiData branch with
  | .error e => (.error e, [])
  | .ok data =>
    let req : Request := ⟨"/packages/name/" ++ pkg, false, data⟩
    (checkStatus (server req), [req])

/-- `PackageDB.clone_branch`: one authenticated request carrying the
`email_log` flag; the response is returned raw (no `status` check appears in
this method's body). -/
def clone_branch (server : Server) (pkg branch master : String)
    (email_log : Bool) : Except PyError Payload × List Request :=
  let req : Request :=
    ⟨"/packages/dispatcher/clone_branch/" ++ pkg ++ "/" ++ branch ++ "/" ++
      master, true, some [("email_log", .bool email_log)]⟩
  (.ok (server req), [req])

/-- `PackageDB.mass_branch`: one authenticated request to
`/collections/mass_branch/BRANCH`; the body is a bare
`return self.send_request(...)` with no `status` check. -/
def mass_branch (server : Server) (branch : String) :
    Except PyError Payload × List Request :=
  let req : Request := ⟨"/collections/mass_branch/" ++ branch, true, none⟩
  (.ok (server req), [req])

/-- `PackageDB.get_owners`: builds the path from the optional collection and
collection version, sends one unauthenticated request, then applies the
falsy-`status` check as in `get_package_info`. -/
def get_owners (server : Server) (package : String)
    (collection collection_ver : Option String) :
    Except PyError Payload × List Request :=
  let m0 := "/packages/name/" ++ package
  let method :=
    if optTruthy collection then
      let m1 := m0 ++ "/" ++ collection.getD ""
      if optTruthy collection_ver then m1 ++ "/" ++ collection_ver.getD ""
      else m1
    else m0
  let req : Request := ⟨method, false, none⟩
  (checkStatus (server req), [req])

/-- `PackageDB.remove_user`: the `collectn_list` parameter is included only
when the argument is truthy (a non-empty list); the response is returned raw,
with no `status` check. -/
def remove_user (server : Server) (username pkg_name : String)
    (collectn_list : Option (List String)) :
    Except PyError Payload × List Request :=
  let params :=
    match collectn_list with
    | some l =>
      if !l.isEmpty then
        [("username", JVal.str username), ("pkg_name", JVal.str pkg_name),
         ("collectn_list", JVal.arr (l.map .str))]
      else [("username", JVal.str username), ("pkg_name", JVal.str pkg_name)]
    | none => [("username", JVal.str username), ("pkg_name", JVal.str pkg_name)]
  let req : Request := ⟨"/packages/dispatcher/remove_user", true, some params⟩
  (.ok (server req), [req])

/-- Python `str()` of a `JVal`, as used when a payload field is interpolated
into an error-message format string. -/
def JVal.pyStr : JVal → String
  | .null => "None"
  | .bool true => "True"
  | .bool false => "False"
  | .str s => s
  | .num n => toString n
  | .arr _ => "[...]"

/-- `simplejson.dumps` on a list of strings (escaping of special characters
inside the strings is not modelled; no verified property depends on it). -/
def jsonDumps (xs : List String) : String :=
  "[" ++ String.intercalate ", " (xs.map (fun s => "\"" ++ s ++ "\"")) ++ "]"

/-- Result of `add_edit_package`: the Python outcome, the request trace, and
the final value of the caller-supplied `branches` list object
(`add_edit_package` appends to it in place on the creation path). -/
structure AEPResult where
  result : Except PyError Unit
  trace : List Request
  branchesAfter : Option (List String)

/-- The parameter dict built in the edit phase of `add_edit_package`: each
truthy argument contributes its serialized field. -/
def editParams (owner description : Option String)
    (cc_list comaintainers groups branches : Option (List String)) :
    List (String × JVal) :=
  let d0 : List (String × JVal) := []
  let d1 := if optTruthy owner then
      d0 ++ [("owner", JVal.str (owner.getD ""))] else d0
  let d2 := if optTruthy description then
      d1 ++ [("summary", JVal.str (description.getD ""))] else d1
  let d3 := match cc_list with
    | some l => if !l.isEmpty then d2 ++ [("ccList", JVal.str (jsonDumps l))]
        else d2
    | none => d2
  let d4 := match comaintainers with
    | some l =>
      if !l.isEmpty then d3 ++ [("comaintList", JVal.str (jsonDumps l))]
      else d3
    | none => d3
  let d5 := match groups with
    | some l => if !l.isEmpty then d4 ++ [("groups", JVal.str (jsonDumps l))]
        else d4
    | none => d4
  match branches with
  | some l => if !l.isEmpty then d5 ++ [("collections", JVal.arr (l.map .str))]
      else d5
  | none => d5

/-- The edit phase of `add_edit_package` (the straight-line code after the
try/except): build the edit parameters, send the authenticated edit request,
and raise `AppError` if the response reports failure. -/
def aepEdit (server : Server) (pkg : String)
    (owner description : Option String)
    (cc_list comaintainers groups branches : Option (List String))
    (prev : List Request) : AEPResult :=
  let data := editParams owner description cc_list comaintainers groups
    branches
  let req : Request :=
    ⟨"/packages/dispatcher/edit_package/" ++ pkg, true, some data⟩
  let response := server req
  if statusFails response then
    match response.lookup "message" with
    | some m =>
      ⟨.error (.appError "PackageDBError"
        (.str ("Unable to save all information for " ++ pkg ++ ": " ++
          m.pyStr))), prev ++ [req], branches⟩
    | none => ⟨.error (.keyError "message"), prev ++ [req], branches⟩
  else ⟨.ok (), prev ++ [req], branches⟩

/-- `PackageDB.add_edit_package`: look the package up; on `AppError` (package
absent) create it when an owner is given — evaluating `'devel' not in
branches` first, which is a `TypeError` when `branches` is `None` — or raise
`PackageDBError` when no owner is given; then always run the edit phase. -/
def add_edit_package (server : Server) (pkg : String)
    (owner description : Option String) (branches : Option (List String))
    (cc_list comaintainers groups : Option (List String)) : AEPResult :=
  let lookupRes := get_package_info server pkg none
  match lookupRes.1 with
  | .error (.appError _ _) =>
    if optTruthy owner then
      match branches with
      | none =>
        ⟨.error (.typeError "argument of type NoneType is not iterable"),
          lookupRes.2, none⟩
      | some bs =>
        let bs1 := if bs.contains "devel" then bs else bs ++ ["devel"]
        let data := [("package", JVal.str pkg),
                     ("owner", JVal.str (owner.getD "")),
                     ("summary", optJVal description)]
        let req : Request :=
          ⟨"/packages/dispatcher/add_package", true, some data⟩
        let response := server req
        if statusFails response then
          match response.lookup "message" with
          | some m =>
            ⟨.error (.appError "PackageDBError"
              (.str ("PackageDB returned an error creating " ++ pkg ++ ": "
                ++ m.pyStr))), lookupRes.2 ++ [req], some bs1⟩
          | none => ⟨.error (.keyError "message"), lookupRes.2 ++ [req],
              some bs1⟩
        else
          aepEdit server pkg none none cc_list comaintainers groups
            (some bs1) (lookupRes.2 ++ [req])
    else
      ⟨.error (.packageDBError ("Package " ++ pkg ++
        " does not exist and we do not have enough information to create" ++
        " it.")), lookupRes.2, branches⟩
  | .error e => ⟨.error e, lookupRes.2, branches⟩
  | .ok _ =>
    aepEdit server pkg owner description cc_list comaintainers groups
      branches lookupRes.2

/-- Whether a request's parameter dict contains a given key. -/
def reqHasKey (r : Request) (k : String) : Bool :=
  match r.req_params with
  | some ps => (List.lookup k ps).isSome
  | none => false

/-- Placeholder request used as the default of positional trace access. -/
def dummyReq : Request := ⟨"", false, none⟩

/-- Concrete server answering every request with the partial-failure payload
of the mass-branch scenario from the specification. -/
def massFailServer : Server := fun _ =>
  [("status", .bool false), ("message", .str "partial"),
   ("extras", .arr [.str "pkgA", .str "pkgB"])]

/-- Concrete server for the create-or-edit scenarios: the initial lookup
fails with a server-reported error, while the creation and edit dispatcher
endpoints succeed. -/
def createServer : Server := fun req =>
  if req.path = "/packages/dispatcher/add_package" then [("status", .bool true)]
  else if req.path = "/packages/dispatcher/edit_package/newpkg" then
    [("status", .bool true)]
  else [("status", .bool false), ("message", .str "not found")]

/-- Concrete server whose answer depends on the package queried: `bash`
produces a server-reported failure, everything else a plain payload with no
`status` field. -/
def mixedServer : Server := fun req =>
  if req.path = "/packages/name/bash" then
    [("status", .bool false), ("message", .str "no such package")]
  else [("name", .str "x")]

end Pkgdb

namespace Pkgdb

/-- Splitting a dash-free character list yields the single segment. -/
theorem splitDash_no_dash (l : List Char) (h : '-' ∉ l) :
    splitDash l = [l] := by
  induction l with
  | nil => rfl
  | cons c rest ih =>
    have hc : c ≠ '-' := fun hc => h (hc ▸ List.mem_cons_self c rest)
    have hrest : '-' ∉ rest := fun hm => h (List.mem_cons_of_mem c hm)
    unfold splitDash
    rw [if_neg hc, ih hrest]

/-- Splitting peels a dash-free segment off the front. -/
theorem splitDash_append (p v : List Char) (h : '-' ∉ p) :
    splitDash (p ++ '-' :: v) = p :: splitDash v := by
  induction p with
  | nil =>
    show splitDash ('-' :: v) = [] :: splitDash v
    conv_lhs => rw [splitDash]
    rw [if_pos rfl]
  | cons c rest ih =>
    have hc : c ≠ '-' := fun hc => h (hc ▸ List.mem_cons_self c rest)
    have hrest : '-' ∉ rest := fun hm => h (List.mem_cons_of_mem c hm)
    show splitDash (c :: (rest ++ '-' :: v)) = (c :: rest) :: splitDash v
    conv_lhs => rw [splitDash]
    rw [if_neg hc, ih hrest]

/-- A string built around a dash is never the literal `devel`. -/
theorem mk_dash_ne_devel (p v : List Char) :
    String.mk (p ++ '-' :: v) ≠ "devel" := by
  intro h
  have hm : '-' ∈ (String.mk (p ++ '-' :: v)).data :=
    List.mem_append_right p (List.mem_cons_self _ _)
  rw [h] at hm
  revert hm
  decide

/-- Evaluation of `canonical_branch_name` on a non-devel token whose split
has exactly two parts. -/
theorem canonical_branch_name_split (branch : String) (c v : List Char)
    (hne : branch ≠ "devel") (hsplit : splitDash branch.data = [c, v]) :
    canonical_branch_name branch =
      match List.lookup (String.mk c) COLLECTIONMAP with
      | some name => .ok (name, String.mk v)
      | none => .error (.packageDBError (unknownCollectionMsg (String.mk c)))
    := by
  unfold canonical_branch_name
  rw [if_neg hne, hsplit]

/-- `checkStatus` passes a payload through when its `status` is absent or
truthy. -/
theorem checkStatus_pass (resp : Payload) (h : statusFails resp = false) :
    checkStatus resp = .ok resp := by
  unfold checkStatus
  rw [h]
  rfl

/-- `checkStatus` raises `AppError` carrying the payload's `message` when
`status` is falsy. -/
theorem checkStatus_failure (resp : Payload) (m : JVal)
    (hm : resp.lookup "message" = some m) (h : statusFails resp = true) :
    checkStatus resp = .error (.appError "PackageDBError" m) := by
  unfold checkStatus
  rw [h, hm]
  rfl

/-- `get_package_info` without a branch: one request, checked response. -/
theorem gpi_none_eval (server : Server) (pkg : String) :
    get_package_info server pkg none =
      (checkStatus (server ⟨"/packages/name/" ++ pkg, false, none⟩),
       [⟨"/packages/name/" ++ pkg, false, none⟩]) := rfl

/-- The edit phase sends exactly one request after the previous ones. -/
theorem aepEdit_trace (server : Server) (pkg : String)
    (owner description : Option String)
    (cc_list comaintainers groups branches : Option (List String))
    (prev : List Request) :
    (aepEdit server pkg owner description cc_list comaintainers groups
        branches prev).trace =
      prev ++ [⟨"/packages/dispatcher/edit_package/" ++ pkg, true,
        some (editParams owner description cc_list comaintainers groups
          branches)⟩] := by
  unfold aepEdit
  dsimp only
  split
  · split <;> rfl
  · rfl

/-- The edit phase never touches the branches list. -/
theorem aepEdit_branchesAfter (server : Server) (pkg : String)
    (owner description : Option String)
    (cc_list comaintainers groups branches : Option (List String))
    (prev : List Request) :
    (aepEdit server pkg owner description cc_list comaintainers groups
        branches prev).branchesAfter = branches := by
  unfold aepEdit
  dsimp only
  split
  · split <;> rfl
  · rfl

/-- `get_package_info` sends at most one request. -/
theorem gpi_trace_le_one (server : Server) (pkg : String)
    (branch : Option String) :
    (get_package_info server pkg branch).2.length ≤ 1 := by
  unfold get_package_info
  split <;> simp

end Pkgdb

namespace Pkgdb

theorem editParams_owner_none (cc cm gr br : Option (List String)) :
    List.lookup "owner" (editParams none none cc cm gr br) = none ∧
    List.lookup "summary" (editParams none none cc cm gr br) = none := by
  unfold editParams
  cases cc <;> cases cm <;> cases gr <;> cases br <;>
    simp only [optTruthy] <;>
    (repeat' split) <;>
    first
      | rfl
      | (constructor <;> rfl)
      | simp_all

theorem cbn_branch_eval (p coll : String) (v : List Char) (hv : '-' ∉ v)
    (hp : '-' ∉ p.data)
    (hlook : List.lookup p COLLECTIONMAP = some coll) :
    canonical_branch_name (String.mk (p.data ++ '-' :: v)) =
      .ok (coll, String.mk v) := by
  have hsplit : splitDash (String.mk (p.data ++ '-' :: v)).data =
      [p.data, v] := by
    show splitDash (p.data ++ '-' :: v) = [p.data, v]
    rw [splitDash_append _ _ hp, splitDash_no_dash _ hv]
  rw [canonical_branch_name_split _ _ _ (mk_dash_ne_devel _ _) hsplit]
  show (match List.lookup p COLLECTIONMAP with
        | some name => Except.ok (name, String.mk v)
        | none =>
          Except.error (PyError.packageDBError (unknownCollectionMsg p))) = _
  rw [hlook]

end Pkgdb

namespace Pkgdb

/-- C2 (amended): for every recognized prefix `P` in `COLLECTIONMAP` and
every version string `V` that contains no dash, `canonical_branch_name`
applied to the token `P-V` returns `(COLLECTIONMAP[P], V)`, and
`canonical_branch_name "devel"` returns `("Fedora", "devel")`.  (The original
claim's "any version string V" fails when `V` itself contains a dash, see the
counterexample.) -/
theorem canonical_branch_name_recognized (p coll : String) (v : List Char)
    (hp : (p, coll) ∈ COLLECTIONMAP) (hv : '-' ∉ v) :
    canonical_branch_name (String.mk (p.data ++ '-' :: v)) =
      .ok (coll, String.mk v) ∧
    canonical_branch_name "devel" = .ok ("Fedora", "devel") := by
  refine ⟨?_, rfl⟩
  simp only [COLLECTIONMAP, List.mem_cons, List.not_mem_nil, or_false,
    Prod.mk.injEq] at hp
  rcases hp with ⟨rfl, rfl⟩ | ⟨rfl, rfl⟩ | ⟨rfl, rfl⟩ | ⟨rfl, rfl⟩ |
    ⟨rfl, rfl⟩ | ⟨rfl, rfl⟩
  · exact cbn_branch_eval "F" "Fedora" v hv (by decide) rfl
  · exact cbn_branch_eval "FC" "Fedora" v hv (by decide) rfl
  · exact cbn_branch_eval "EL" "Fedora EPEL" v hv (by decide) rfl
  · exact cbn_branch_eval "EPEL" "Fedora EPEL" v hv (by decide) rfl
  · exact cbn_branch_eval "OLPC" "Fedora OLPC" v hv (by decide) rfl
  · exact cbn_branch_eval "RHL" "Red Hat Linux" v hv (by decide) rfl

theorem canonical_branch_name_recognized_witness :
    (("FC", "Fedora") ∈ COLLECTIONMAP) ∧ ('-' ∉ ['6']) ∧
    (canonical_branch_name (String.mk ("FC".data ++ '-' :: ['6'])) =
        .ok ("Fedora", String.mk ['6']) ∧
      canonical_branch_name "devel" = .ok ("Fedora", "devel")) :=
  ⟨by decide, by decide,
    canonical_branch_name_recognized "FC" "Fedora" ['6'] (by decide)
      (by decide)⟩

/-- C2 counterexample: for the recognized prefix `F` and version `1-2` the
claim asserts the result `("Fedora", "1-2")`, but `branch.split('-')`
produces three parts and the two-variable unpacking raises `ValueError`. -/
theorem canonical_branch_name_dashed_version_cex :
    canonical_branch_name "F-1-2" =
      .error (.valueError "too many values to unpack") ∧
    canonical_branch_name "F-1-2" ≠ .ok ("Fedora", "1-2") :=
  ⟨rfl, fun h => nomatch h⟩

/-- evaluation of get_package_info when the branch resolution fails -/
theorem gpi_branch_error (server : Server) (pkg b : String) (e : PyError)
    (hb : b ≠ "") (hcbn : canonical_branch_name b = .error e) :
    get_package_info server pkg (some b) = (.error e, []) := by
  unfold get_package_info gpiData
  simp [optTruthy, hb, hcbn, Option.getD_some]

end Pkgdb

namespace Pkgdb

/-- C6 (amended): for every branch token other than `devel`,
`canonical_branch_name` fails locally without any network call: when the
token contains no dash it raises a generic `ValueError` from the two-variable
unpacking (not the PackageDB domain error), and when the prefix is not a key
of the collection map it raises the domain error `PackageDBError` whose
message names the offending prefix (the prefix occurs in the message) — but
enumerates only `F, FC, EL, OLPC`, omitting the accepted prefixes `EPEL` and
`RHL`.  A branch that fails to resolve makes `get_package_info` fail with an
empty request trace. -/
theorem canonical_branch_name_malformed_amended (b : String) (c v : List Char)
    (e : PyError) (server : Server) (pkg : String) (hne : b ≠ "devel") :
    ('-' ∉ b.data →
      canonical_branch_name b =
        .error (.valueError "not enough values to unpack")) ∧
    (splitDash b.data = [c, v] →
      List.lookup (String.mk c) COLLECTIONMAP = none →
      canonical_branch_name b =
        .error (.packageDBError (unknownCollectionMsg (String.mk c))) ∧
      c <:+: (unknownCollectionMsg (String.mk c)).data) ∧
    (canonical_branch_name b = .error e → b ≠ "" →
      (get_package_info server pkg (some b)).2 = []) := by
  refine ⟨?_, ?_, ?_⟩
  · intro h
    unfold canonical_branch_name
    rw [if_neg hne, splitDash_no_dash _ h]
    rfl
  · intro hsplit hlook
    refine ⟨?_, ?_⟩
    · rw [canonical_branch_name_split _ _ _ hne hsplit, hlook]
    · exact ⟨"Collection abbreviation ".data,
        " is unknown.  Use F, FC, EL, or OLPC".data,
        by simp [unknownCollectionMsg, String.data_append]⟩
  · intro hcbn hb
    rw [gpi_branch_error server pkg b e hb hcbn]

theorem canonical_branch_name_malformed_witness :
    ("ZZ-1" : String) ≠ "devel" ∧
    (('-' ∉ "ZZ-1".data →
      canonical_branch_name "ZZ-1" =
        .error (.valueError "not enough values to unpack")) ∧
     (splitDash "ZZ-1".data = [['Z', 'Z'], ['1']] →
      List.lookup (String.mk ['Z', 'Z']) COLLECTIONMAP = none →
      canonical_branch_name "ZZ-1" =
        .error (.packageDBError (unknownCollectionMsg (String.mk ['Z', 'Z']))) ∧
      ['Z', 'Z'] <:+: (unknownCollectionMsg (String.mk ['Z', 'Z'])).data) ∧
     (canonical_branch_name "ZZ-1" =
        .error (.packageDBError (unknownCollectionMsg "ZZ")) →
      ("ZZ-1" : String) ≠ "" →
      (get_package_info massFailServer "foo" (some "ZZ-1")).2 = [])) :=
  ⟨by decide,
    canonical_branch_name_malformed_amended "ZZ-1" ['Z', 'Z'] ['1']
      (.packageDBError (unknownCollectionMsg "ZZ")) massFailServer "foo"
      (by decide)⟩

/-- C6 counterexample: `develx` (no separator) raises `ValueError`, not the
domain error the claim promises, and the unknown-prefix message for `ZZ-1`
does not enumerate the accepted prefixes `EPEL` and `RHL`. -/
theorem canonical_branch_name_malformed_cex :
    canonical_branch_name "develx" =
      .error (.valueError "not enough values to unpack") ∧
    canonical_branch_name "ZZ-1" =
      .error (.packageDBError (unknownCollectionMsg "ZZ")) ∧
    ¬ ("EPEL".data <:+: (unknownCollectionMsg "ZZ").data) ∧
    ¬ ("RHL".data <:+: (unknownCollectionMsg "ZZ").data) :=
  ⟨rfl, rfl, by decide, by decide⟩

/-- C3 (code bug): on the response payload
`status: false, message: "partial", extras: ["pkgA", "pkgB"]` the claim and
the method's own docstring say `mass_branch` raises an error carrying the
message whose extras list the unbranched packages; the code has no status
check at all (unlike `get_package_info`, `get_owners` and
`add_edit_package`) and returns the failure payload raw. -/
theorem mass_branch_partial_failure_returns_raw :
    mass_branch massFailServer "F-20" =
      (.ok [("status", .bool false), ("message", .str "partial"),
            ("extras", .arr [.str "pkgA", .str "pkgB"])],
       [⟨"/collections/mass_branch/F-20", true, none⟩]) ∧
    statusFails (massFailServer
      ⟨"/collections/mass_branch/F-20", true, none⟩) = true :=
  ⟨rfl, rfl⟩

end Pkgdb

namespace Pkgdb

/-- C1: whenever `get_package_info` or `get_owners` has sent its single
request, a response payload with a falsy `status` field (and the `message`
the convention pairs with it) makes the call raise `AppError` carrying the
payload's `message`, and any other payload — `status` absent or truthy — is
returned unchanged. -/
theorem get_package_info_get_owners_status_check (server : Server)
    (pkg package : String) (branch collection collection_ver : Option String)
    (req1 req2 : Request) (m1 m2 : JVal)
    (h1 : (get_package_info server pkg branch).2 = [req1])
    (h2 : (get_owners server package collection collection_ver).2 = [req2]) :
    (statusFails (server req1) = false →
      (get_package_info server pkg branch).1 = .ok (server req1)) ∧
    ((server req1).lookup "message" = some m1 →
      statusFails (server req1) = true →
      (get_package_info server pkg branch).1 =
        .error (.appError "PackageDBError" m1)) ∧
    (statusFails (server req2) = false →
      (get_owners server package collection collection_ver).1 =
        .ok (server req2)) ∧
    ((server req2).lookup "message" = some m2 →
      statusFails (server req2) = true →
      (get_owners server package collection collection_ver).1 =
        .error (.appError "PackageDBError" m2)) := by
  have hg : (statusFails (server req1) = false →
      (get_package_info server pkg branch).1 = .ok (server req1)) ∧
      ((server req1).lookup "message" = some m1 →
        statusFails (server req1) = true →
        (get_package_info server pkg branch).1 =
          .error (.appError "PackageDBError" m1)) := by
    unfold get_package_info at h1 ⊢
    cases hgd : gpiData branch with
    | error e =>
      rw [hgd] at h1
      exact absurd h1 (by simp)
    | ok data =>
      rw [hgd] at h1
      dsimp only at h1 ⊢
      simp only [List.cons.injEq, and_true] at h1
      subst h1
      exact ⟨fun hf => checkStatus_pass _ hf,
        fun hm hf => checkStatus_failure _ _ hm hf⟩
  have ho : (statusFails (server req2) = false →
      (get_owners server package collection collection_ver).1 =
        .ok (server req2)) ∧
      ((server req2).lookup "message" = some m2 →
        statusFails (server req2) = true →
        (get_owners server package collection collection_ver).1 =
          .error (.appError "PackageDBError" m2)) := by
    unfold get_owners at h2 ⊢
    dsimp only at h2 ⊢
    simp only [List.cons.injEq, and_true] at h2
    subst h2
    exact ⟨fun hf => checkStatus_pass _ hf,
      fun hm hf => checkStatus_failure _ _ hm hf⟩
  exact ⟨hg.1, hg.2, ho.1, ho.2⟩

theorem get_package_info_get_owners_status_check_witness :
    ((get_package_info mixedServer "bash" none).2 =
      [⟨"/packages/name/bash", false, none⟩]) ∧
    ((get_owners mixedServer "bash2" none none).2 =
      [⟨"/packages/name/bash2", false, none⟩]) ∧
    ((statusFails (mixedServer ⟨"/packages/name/bash", false, none⟩) = false →
      (get_package_info mixedServer "bash" none).1 =
        .ok (mixedServer ⟨"/packages/name/bash", false, none⟩)) ∧
     ((mixedServer ⟨"/packages/name/bash", false, none⟩).lookup "message" =
        some (.str "no such package") →
      statusFails (mixedServer ⟨"/packages/name/bash", false, none⟩) = true →
      (get_package_info mixedServer "bash" none).1 =
        .error (.appError "PackageDBError" (.str "no such package"))) ∧
     (statusFails (mixedServer ⟨"/packages/name/bash2", false, none⟩) =
        false →
      (get_owners mixedServer "bash2" none none).1 =
        .ok (mixedServer ⟨"/packages/name/bash2", false, none⟩)) ∧
     ((mixedServer ⟨"/packages/name/bash2", false, none⟩).lookup "message" =
        some (.str "x") →
      statusFails (mixedServer ⟨"/packages/name/bash2", false, none⟩) =
        true →
      (get_owners mixedServer "bash2" none none).1 =
        .error (.appError "PackageDBError" (.str "x")))) :=
  ⟨rfl, rfl,
    get_package_info_get_owners_status_check mixedServer "bash" "bash2"
      none none none ⟨"/packages/name/bash", false, none⟩
      ⟨"/packages/name/bash2", false, none⟩ (.str "no such package")
      (.str "x") rfl rfl⟩

end Pkgdb

namespace Pkgdb

/-- C5: when the initial lookup fails with a server-reported error and no
owner was supplied, `add_edit_package` fails immediately with the local
"does not exist / cannot create" `PackageDBError` and its request trace is
exactly the single lookup request. -/
theorem add_edit_package_no_owner_local_error (server : Server) (pkg : String)
    (description : Option String)
    (branches cc_list comaintainers groups : Option (List String)) (m : JVal)
    (hl : statusFails (server ⟨"/packages/name/" ++ pkg, false, none⟩) = true)
    (hm : (server ⟨"/packages/name/" ++ pkg, false, none⟩).lookup "message" =
      some m) :
    add_edit_package server pkg none description branches cc_list
        comaintainers groups =
      ⟨.error (.packageDBError ("Package " ++ pkg ++
        " does not exist and we do not have enough information to create" ++
        " it.")),
       [⟨"/packages/name/" ++ pkg, false, none⟩], branches⟩ := by
  unfold add_edit_package
  dsimp only
  rw [gpi_none_eval]
  dsimp only
  rw [checkStatus_failure _ _ hm hl]
  dsimp only
  have hof : ¬ (optTruthy (none : Option String) = true) := by
    simp [optTruthy]
  rw [if_neg hof]

/-- C10: on the creation path (lookup failed, owner supplied) the
membership test `'devel' not in branches` is evaluated before any creation
request, so with `branches` left at `None` the call fails with `TypeError`
(not a domain error) and the trace holds only the initial lookup. -/
theorem add_edit_package_branches_none_type_error (server : Server)
    (pkg o : String) (description : Option String)
    (cc_list comaintainers groups : Option (List String)) (m : JVal)
    (ho : o ≠ "")
    (hl : statusFails (server ⟨"/packages/name/" ++ pkg, false, none⟩) = true)
    (hm : (server ⟨"/packages/name/" ++ pkg, false, none⟩).lookup "message" =
      some m) :
    add_edit_package server pkg (some o) description none cc_list
        comaintainers groups =
      ⟨.error (.typeError "argument of type NoneType is not iterable"),
       [⟨"/packages/name/" ++ pkg, false, none⟩], none⟩ := by
  have hot : optTruthy (some o) = true := by simp [optTruthy, ho]
  unfold add_edit_package
  dsimp only
  rw [gpi_none_eval]
  dsimp only
  rw [checkStatus_failure _ _ hm hl]
  dsimp only
  rw [if_pos hot]

end Pkgdb

namespace Pkgdb

/-- C4: on the creation path, after a successful creation request (whose
parameters carry the package, owner and summary), the locally held owner and
description are cleared, and the edit request — always sent, as the third and
last request — carries parameters without the `owner` and `summary` keys. -/
theorem add_edit_package_create_clears_owner (server : Server)
    (pkg o : String) (d : Option String) (bs : List String)
    (cc cm gr : Option (List String)) (m : JVal)
    (ho : o ≠ "")
    (hl : statusFails (server ⟨"/packages/name/" ++ pkg, false, none⟩) = true)
    (hm : (server ⟨"/packages/name/" ++ pkg, false, none⟩).lookup "message" =
      some m)
    (hc : statusFails (server ⟨"/packages/dispatcher/add_package", true,
      some [("package", .str pkg), ("owner", .str o),
            ("summary", optJVal d)]⟩) = false) :
    (add_edit_package server pkg (some o) d (some bs) cc cm gr).trace =
      [⟨"/packages/name/" ++ pkg, false, none⟩,
       ⟨"/packages/dispatcher/add_package", true,
        some [("package", .str pkg), ("owner", .str o),
              ("summary", optJVal d)]⟩,
       ⟨"/packages/dispatcher/edit_package/" ++ pkg, true,
        some (editParams none none cc cm gr
          (some (if bs.contains "devel" then bs else bs ++ ["devel"])))⟩] ∧
    List.lookup "owner" (editParams none none cc cm gr
      (some (if bs.contains "devel" then bs else bs ++ ["devel"]))) = none ∧
    List.lookup "summary" (editParams none none cc cm gr
      (some (if bs.contains "devel" then bs else bs ++ ["devel"]))) = none := by
  refine ⟨?_, (editParams_owner_none cc cm gr _).1,
    (editParams_owner_none cc cm gr _).2⟩
  have hot : optTruthy (some o) = true := by simp [optTruthy, ho]
  unfold add_edit_package
  dsimp only
  rw [gpi_none_eval]
  dsimp only
  rw [checkStatus_failure _ _ hm hl]
  dsimp only
  rw [if_pos hot]
  simp only [Option.getD_some]
  rw [if_neg (by simp [hc])]
  rw [aepEdit_trace]
  simp

end Pkgdb

namespace Pkgdb

/-- C9 (amended): `add_edit_package` mutates the caller-supplied branches
list exactly on the creation path when `devel` is missing: there it appends
`devel` to the caller's list in place, so afterwards the list holds its prior
elements plus `devel`; when `devel` is already present, or when the lookup
succeeds, the caller's list is unchanged. -/
theorem add_edit_package_branches_after_amended (server : Server)
    (pkg o : String) (d : Option String) (bs : List String)
    (cc cm gr : Option (List String)) (m : JVal) (ho : o ≠ "") :
    (statusFails (server ⟨"/packages/name/" ++ pkg, false, none⟩) = true →
     (server ⟨"/packages/name/" ++ pkg, false, none⟩).lookup "message" =
       some m →
     bs.contains "devel" = true →
     (add_edit_package server pkg (some o) d (some bs) cc cm
       gr).branchesAfter = some bs) ∧
    (statusFails (server ⟨"/packages/name/" ++ pkg, false, none⟩) = true →
     (server ⟨"/packages/name/" ++ pkg, false, none⟩).lookup "message" =
       some m →
     bs.contains "devel" = false →
     (add_edit_package server pkg (some o) d (some bs) cc cm
       gr).branchesAfter = some (bs ++ ["devel"])) ∧
    (statusFails (server ⟨"/packages/name/" ++ pkg, false, none⟩) = false →
     (add_edit_package server pkg (some o) d (some bs) cc cm
       gr).branchesAfter = some bs) := by
  have hot : optTruthy (some o) = true := by simp [optTruthy, ho]
  refine ⟨?_, ?_, ?_⟩
  · intro hl hm hdev
    unfold add_edit_package
    dsimp only
    rw [gpi_none_eval]
    dsimp only
    rw [checkStatus_failure _ _ hm hl]
    dsimp only
    rw [if_pos hot, if_pos hdev]
    split
    · split <;> rfl
    · rw [aepEdit_branchesAfter]
  · intro hl hm hdev
    unfold add_edit_package
    dsimp only
    rw [gpi_none_eval]
    dsimp only
    rw [checkStatus_failure _ _ hm hl]
    dsimp only
    rw [if_pos hot]
    simp only [hdev]
    rw [if_neg Bool.false_ne_true]
    split
    · split <;> rfl
    · rw [aepEdit_branchesAfter]
  · intro hl
    unfold add_edit_package
    dsimp only
    rw [gpi_none_eval]
    dsimp only
    rw [checkStatus_pass _ hl]
    dsimp only
    rw [aepEdit_branchesAfter]

/-- C9 counterexample: on the creation path with branches `["F-20"]` the
caller's list afterwards holds `["F-20", "devel"]`, not the elements it held
before the call. -/
theorem add_edit_package_mutation_cex :
    (add_edit_package createServer "newpkg" (some "alice") none
        (some ["F-20"]) none none none).branchesAfter =
      some ["F-20", "devel"] ∧
    (["F-20", "devel"] : List String) ≠ ["F-20"] :=
  ⟨rfl, by decide⟩

/-- C7 (amended): every public operation issues at most three sequential
network calls; all operations except `add_edit_package` issue exactly one,
and `add_edit_package` issues at most three (lookup, creation, edit on its
creation path — one more than the two the claim allows).  Each operation is
synchronous: later requests are functions of earlier responses. -/
theorem at_most_three_network_calls (server : Server)
    (pkg branchTok master package username pkg_name : String)
    (branch collection collection_ver : Option String) (email_log : Bool)
    (owner description : Option String)
    (branches cc_list comaintainers groups collectn_list :
      Option (List String)) :
    (get_package_info server pkg branch).2.length ≤ 1 ∧
    (clone_branch server pkg branchTok master email_log).2.length = 1 ∧
    (mass_branch server branchTok).2.length = 1 ∧
    (get_owners server package collection collection_ver).2.length = 1 ∧
    (remove_user server username pkg_name collectn_list).2.length = 1 ∧
    (add_edit_package server pkg owner description branches cc_list
        comaintainers groups).trace.length ≤ 3 := by
  refine ⟨gpi_trace_le_one server pkg branch, rfl, rfl, rfl, rfl, ?_⟩
  rcases hgpi : get_package_info server pkg none with ⟨res, tr⟩
  have hlen : tr.length ≤ 1 := by
    have h := gpi_trace_le_one server pkg none
    rw [hgpi] at h
    exact h
  unfold add_edit_package
  rw [hgpi]
  cases res with
  | ok p =>
    dsimp only
    rw [aepEdit_trace]
    simp only [List.length_append, List.length_cons, List.length_nil]
    omega
  | error e =>
    cases e with
    | appError n msg =>
      dsimp only
      repeat' split
      all_goals try rw [aepEdit_trace]
      all_goals try dsimp only
      all_goals try simp only [List.length_append, List.length_cons,
        List.length_nil]
      all_goals omega
    | packageDBError s =>
      dsimp only
      omega
    | keyError s =>
      dsimp only
      omega
    | typeError s =>
      dsimp only
      omega
    | valueError s =>
      dsimp only
      omega

/-- C7 counterexample: a successful create-then-edit run of
`add_edit_package` issues three network calls, violating the claimed bound of
two. -/
theorem two_call_bound_cex :
    ¬ ((add_edit_package createServer "newpkg" (some "alice") none
        (some ["devel"]) none none none).trace.length ≤ 2) := by decide

/-- C8 (amended): `remove_user` omits the `collectn_list` parameter when
the argument is `None` or an empty list (Python truthiness), includes a
non-empty list verbatim, and returns the raw server result without the
falsy-status check used by the read operations. -/
theorem remove_user_params_amended (server : Server)
    (username pkg_name : String) (cl : Option (List String))
    (l : List String) (hl : l ≠ []) :
    ((cl = none ∨ cl = some []) →
      remove_user server username pkg_name cl =
        (.ok (server ⟨"/packages/dispatcher/remove_user", true,
            some [("username", .str username),
                  ("pkg_name", .str pkg_name)]⟩),
         [⟨"/packages/dispatcher/remove_user", true,
            some [("username", .str username),
                  ("pkg_name", .str pkg_name)]⟩])) ∧
    remove_user server username pkg_name (some l) =
      (.ok (server ⟨"/packages/dispatcher/remove_user", true,
          some [("username", .str username), ("pkg_name", .str pkg_name),
                ("collectn_list", .arr (l.map .str))]⟩),
       [⟨"/packages/dispatcher/remove_user", true,
          some [("username", .str username), ("pkg_name", .str pkg_name),
                ("collectn_list", .arr (l.map .str))]⟩]) := by
  constructor
  · rintro (rfl | rfl) <;> rfl
  · cases l with
    | nil => exact absurd rfl hl
    | cons x xs => rfl

/-- C8 counterexample: for the explicitly given empty collection list the
claim requires the parameter to be included verbatim, but the code's
truthiness test omits it. -/
theorem remove_user_empty_list_cex :
    (remove_user massFailServer "bob" "foo" (some [])).2 =
      [⟨"/packages/dispatcher/remove_user", true,
        some [("username", .str "bob"), ("pkg_name", .str "foo")]⟩] ∧
    reqHasKey ((remove_user massFailServer "bob" "foo"
        (some [])).2.getD 0 dummyReq) "collectn_list" = false :=
  ⟨rfl, rfl⟩

end Pkgdb

namespace Pkgdb

theorem add_edit_package_no_owner_local_error_witness :
    statusFails (createServer ⟨"/packages/name/nopkg", false, none⟩) = true ∧
    (createServer ⟨"/packages/name/nopkg", false, none⟩).lookup "message" =
      some (.str "not found") ∧
    add_edit_package createServer "nopkg" none none none none none none =
      ⟨.error (.packageDBError ("Package " ++ "nopkg" ++
        " does not exist and we do not have enough information to create" ++
        " it.")),
       [⟨"/packages/name/nopkg", false, none⟩], none⟩ :=
  ⟨rfl, rfl,
    add_edit_package_no_owner_local_error createServer "nopkg" none none
      none none none (.str "not found") rfl rfl⟩

theorem add_edit_package_branches_none_type_error_witness :
    ("alice" : String) ≠ "" ∧
    statusFails (createServer ⟨"/packages/name/nopkg2", false, none⟩) =
      true ∧
    (createServer ⟨"/packages/name/nopkg2", false, none⟩).lookup "message" =
      some (.str "not found") ∧
    add_edit_package createServer "nopkg2" (some "alice") none none none
        none none =
      ⟨.error (.typeError "argument of type NoneType is not iterable"),
       [⟨"/packages/name/nopkg2", false, none⟩], none⟩ :=
  ⟨by decide, rfl, rfl,
    add_edit_package_branches_none_type_error createServer "nopkg2" "alice"
      none none none none (.str "not found") (by decide) rfl rfl⟩

theorem add_edit_package_create_clears_owner_witness :
    ("alice" : String) ≠ "" ∧
    statusFails (createServer ⟨"/packages/name/newpkg", false, none⟩) =
      true ∧
    (createServer ⟨"/packages/name/newpkg", false, none⟩).lookup "message" =
      some (.str "not found") ∧
    statusFails (createServer ⟨"/packages/dispatcher/add_package", true,
      some [("package", .str "newpkg"), ("owner", .str "alice"),
            ("summary", optJVal none)]⟩) = false ∧
    ((add_edit_package createServer "newpkg" (some "alice") none
        (some ["devel"]) none none none).trace =
      [⟨"/packages/name/newpkg", false, none⟩,
       ⟨"/packages/dispatcher/add_package", true,
        some [("package", .str "newpkg"), ("owner", .str "alice"),
              ("summary", optJVal none)]⟩,
       ⟨"/packages/dispatcher/edit_package/newpkg", true,
        some (editParams none none none none none
          (some (if (["devel"] : List String).contains "devel" then ["devel"]
                 else ["devel"] ++ ["devel"])))⟩] ∧
    List.lookup "owner" (editParams none none none none none
      (some (if (["devel"] : List String).contains "devel" then ["devel"]
             else ["devel"] ++ ["devel"]))) = none ∧
    List.lookup "summary" (editParams none none none none none
      (some (if (["devel"] : List String).contains "devel" then ["devel"]
             else ["devel"] ++ ["devel"]))) = none) :=
  ⟨by decide, rfl, rfl, rfl,
    add_edit_package_create_clears_owner createServer "newpkg" "alice" none
      ["devel"] none none none (.str "not found") (by decide) rfl rfl rfl⟩

theorem add_edit_package_branches_after_amended_witness :
    ("alice" : String) ≠ "" ∧
    ((statusFails (createServer ⟨"/packages/name/newpkg", false, none⟩) =
        true →
      (createServer ⟨"/packages/name/newpkg", false, none⟩).lookup
        "message" = some (.str "not found") →
      (["F-20"] : List String).contains "devel" = true →
      (add_edit_package createServer "newpkg" (some "alice") none
        (some ["F-20"]) none none none).branchesAfter = some ["F-20"]) ∧
     (statusFails (createServer ⟨"/packages/name/newpkg", false, none⟩) =
        true →
      (createServer ⟨"/packages/name/newpkg", false, none⟩).lookup
        "message" = some (.str "not found") →
      (["F-20"] : List String).contains "devel" = false →
      (add_edit_package createServer "newpkg" (some "alice") none
        (some ["F-20"]) none none none).branchesAfter =
          some (["F-20"] ++ ["devel"])) ∧
     (statusFails (createServer ⟨"/packages/name/newpkg", false, none⟩) =
        false →
      (add_edit_package createServer "newpkg" (some "alice") none
        (some ["F-20"]) none none none).branchesAfter = some ["F-20"])) :=
  ⟨by decide,
    add_edit_package_branches_after_amended createServer "newpkg" "alice"
      none ["F-20"] none none none (.str "not found") (by decide)⟩

theorem remove_user_params_amended_witness :
    (["F-10"] : List String) ≠ [] ∧
    (((none : Option (List String)) = none ∨
        (none : Option (List String)) = some []) →
      remove_user massFailServer "bob" "foo" none =
        (.ok (massFailServer ⟨"/packages/dispatcher/remove_user", true,
            some [("username", .str "bob"), ("pkg_name", .str "foo")]⟩),
         [⟨"/packages/dispatcher/remove_user", true,
            some [("username", .str "bob"), ("pkg_name", .str "foo")]⟩])) ∧
    remove_user massFailServer "bob" "foo" (some ["F-10"]) =
      (.ok (massFailServer ⟨"/packages/dispatcher/remove_user", true,
          some [("username", .str "bob"), ("pkg_name", .str "foo"),
                ("collectn_list", .arr (["F-10"].map .str))]⟩),
       [⟨"/packages/dispatcher/remove_user", true,
          some [("username", .str "bob"), ("pkg_name", .str "foo"),
                ("collectn_list", .arr (["F-10"].map .str))]⟩]) :=
  ⟨by decide,
    (remove_user_params_amended massFailServer "bob" "foo" none ["F-10"]
      (by decide)).1,
    (remove_user_params_amended massFailServer "bob" "foo" none ["F-10"]
      (by decide)).2⟩

end Pkgdb
